import Mathlib

/-!
Shallow embedding of the refresh-cycle core of this repository
(`src/Qt5/dialog.cpp`, `Dialog::updateDataFromRust`).

The slot runs once per timer tick:

  - `get_system_metrics_json()` returns a C string or a null pointer;
    a non-null buffer is copied and then released with `free_string`.
  - The copied text is parsed with `QJsonDocument::fromJson`; a payload that
    is not a valid JSON document (including the empty string) yields a null
    document, and `doc.object()` on it yields the empty JSON object.
  - Each widget is then written from the object: `obj["f"].toDouble()` is the
    numeric value when the key is present and `0.0` when it is absent, and
    `obj["fan_state"].toInt()` is the value when it is a whole number in the
    `int` range and `0` otherwise (Qt `QJsonValue::toInt` semantics).

JSON numbers are modelled as rationals; the machine `double` arithmetic the
code performs on them (division by 1000000.0 or 1000.0, fixed-point
formatting) is exact on every value considered here, so `ℚ` is a faithful
model of those operations.  The thirteen widget outputs (eight gauge values
and five text labels) form the `DisplayState`; the value handed to a gauge
widget is recorded as given (widget-internal clamping or rounding is part of
the presentation layer, which is out of scope).
-/

/-- Decimal digits of a natural number, most significant first.  The first
argument is recursion fuel; any fuel larger than `n` is enough. -/
def natDigitsAux : ℕ → ℕ → List Char
  | 0, _ => []
  | fuel + 1, n =>
    if n < 10 then [Char.ofNat (48 + n)]
    else natDigitsAux fuel (n / 10) ++ [Char.ofNat (48 + n % 10)]

/-- Decimal rendering of a natural number. -/
def natToStr (n : ℕ) : String := String.mk (natDigitsAux (n + 1) n)

/-- The integer `round(q * 10 ^ prec)` used by fixed-point formatting
(rounding half up; every value formatted by the program in the properties
below is exact at the requested precision, so the tie rule is never
exercised). -/
def fixedRound (q : ℚ) (prec : ℕ) : ℤ := ⌊q * (10 : ℚ) ^ prec + 1 / 2⌋

/-- Models `QString::number(v, 'f', prec)`: fixed-point decimal notation with
exactly `prec` digits after the point. -/
def formatFixed (q : ℚ) (prec : ℕ) : String :=
  let n := fixedRound q prec
  let sign := if n < 0 then "-" else ""
  let m := n.natAbs
  let ip := m / 10 ^ prec
  let fp := m % 10 ^ prec
  let fpStr := natToStr fp
  let pad := String.mk (List.replicate (prec - fpStr.length) '0')
  sign ++ natToStr ip ++ "." ++ pad ++ fpStr

/-- The decoded JSON object for one poll cycle: the numeric value of each
field the program reads, or `none` when the key is absent.  (A key holding a
non-numeric JSON value behaves exactly like an absent key under
`toDouble`/`toInt`, so it is folded into `none`.) -/
structure SnapshotObj where
  cpu_usage : Option ℚ := none
  cpu_freq : Option ℚ := none
  gpu_usage : Option ℚ := none
  gpu_freq : Option ℚ := none
  npu_usage : Option ℚ := none
  npu_freq : Option ℚ := none
  rga_usage : Option ℚ := none
  rga_aclk_freq : Option ℚ := none
  memory_usage : Option ℚ := none
  swap_usage : Option ℚ := none
  temperature : Option ℚ := none
  fan_state : Option ℚ := none

/-- The empty JSON object: every key absent. -/
def emptyObj : SnapshotObj := {}

/-- A non-null payload string, abstracted to its parse outcome:
`wellFormed o` is a payload that `QJsonDocument::fromJson` parses to the
JSON object `o`; `malformed raw` is a payload (the raw text `raw`, possibly
empty) that does not parse to a JSON object. -/
inductive Payload where
  | wellFormed (obj : SnapshotObj)
  | malformed (raw : String)

/-- Models `QJsonDocument::fromJson(payload).object()`: the parsed object on
success, the empty object when parsing fails (null document). -/
def docObject : Payload → SnapshotObj
  | .wellFormed o => o
  | .malformed _ => emptyObj

/-- Models `QJsonValue::toDouble()` with default `0.0`: an absent field reads
as zero. -/
def toDouble (v : Option ℚ) : ℚ := v.getD 0

/-- Models `QJsonValue::toInt()` with default `0`: the value when it is a
whole number in the `int` range, otherwise the default `0` (an absent key,
a fractional number, and an out-of-range number all read as `0`). -/
def toInt (v : Option ℚ) : ℤ :=
  match v with
  | some q => if q.den = 1 ∧ -(2 ^ 31 : ℤ) ≤ q.num ∧ q.num < 2 ^ 31 then q.num else 0
  | none => 0

/-- The thirteen widget outputs written by `updateDataFromRust`, named after
the `ui` members of `dialog.cpp`: eight gauge values and five text labels. -/
structure DisplayState where
  barCPU1 : ℚ
  freqCPU1 : String
  barGPU : ℚ
  freqGPU : String
  barNPU1 : ℚ
  freqNPU1 : String
  barRGA1 : ℚ
  freqRGA1 : String
  barMem : ℚ
  barSwap : ℚ
  barTemp : ℚ
  freqTemp : String
  barFan : ℤ

/-- One refresh cycle of `Dialog::updateDataFromRust`, instrumented with the
number of `free_string` calls it performs.  `json_str` is the provider
result (`none` models a null pointer).  A null result skips the whole body:
nothing is freed and the display is untouched.  A non-null result is freed
exactly once, parsed, and all thirteen outputs are written from the parsed
object. -/
def updateCycle : Option Payload → DisplayState → DisplayState × ℕ
  | none, ui => (ui, 0)
  | some payload, _ =>
    let obj := docObject payload
    ({ barCPU1 := toDouble obj.cpu_usage
       freqCPU1 := formatFixed (toDouble obj.cpu_freq / 1000000) 2 ++ " GHz"
       barGPU := toDouble obj.gpu_usage
       freqGPU := formatFixed (toDouble obj.gpu_freq / 1000000) 2 ++ " GHz"
       barNPU1 := toDouble obj.npu_usage
       freqNPU1 := formatFixed (toDouble obj.npu_freq / 1000000) 2 ++ " GHz"
       barRGA1 := toDouble obj.rga_usage
       freqRGA1 := formatFixed (toDouble obj.rga_aclk_freq / 1000000) 2 ++ " GHz"
       barMem := toDouble obj.memory_usage
       barSwap := toDouble obj.swap_usage
       barTemp := toDouble obj.temperature / 1000
       freqTemp := formatFixed (toDouble obj.temperature / 1000) 1 ++ " °C"
       barFan := toInt obj.fan_state }, 1)

/-- The display after one refresh cycle (first component of `updateCycle`). -/
def updateDataFromRust (json_str : Option Payload) (ui : DisplayState) : DisplayState :=
  (updateCycle json_str ui).1

/-- The display produced from the empty JSON object: every gauge 0 and every
label the formatting of 0. -/
def zeroState : DisplayState :=
  { barCPU1 := 0
    freqCPU1 := "0.00 GHz"
    barGPU := 0
    freqGPU := "0.00 GHz"
    barNPU1 := 0
    freqNPU1 := "0.00 GHz"
    barRGA1 := 0
    freqRGA1 := "0.00 GHz"
    barMem := 0
    barSwap := 0
    barTemp := 0
    freqTemp := "0.0 °C"
    barFan := 0 }

/-- A concrete pre-cycle display with every entry distinct from its
`zeroState` counterpart, standing for last-known-good values from earlier
successful cycles. -/
def priorState : DisplayState :=
  { barCPU1 := 37
    freqCPU1 := "1.50 GHz"
    barGPU := 12
    freqGPU := "0.80 GHz"
    barNPU1 := 5
    freqNPU1 := "1.00 GHz"
    barRGA1 := 7
    freqRGA1 := "0.60 GHz"
    barMem := 42
    barSwap := 3
    barTemp := 52
    freqTemp := "52.3 °C"
    barFan := 2 }

/-- Replaces every absent field of a JSON object by the explicit value 0
(the value `toDouble` reads for an absent key). -/
def fillAbsent (o : SnapshotObj) : SnapshotObj :=
  { cpu_usage := some (toDouble o.cpu_usage)
    cpu_freq := some (toDouble o.cpu_freq)
    gpu_usage := some (toDouble o.gpu_usage)
    gpu_freq := some (toDouble o.gpu_freq)
    npu_usage := some (toDouble o.npu_usage)
    npu_freq := some (toDouble o.npu_freq)
    rga_usage := some (toDouble o.rga_usage)
    rga_aclk_freq := some (toDouble o.rga_aclk_freq)
    memory_usage := some (toDouble o.memory_usage)
    swap_usage := some (toDouble o.swap_usage)
    temperature := some (toDouble o.temperature)
    fan_state := some (toDouble o.fan_state) }

/-- The JSON number 27/10 (the literal `2.7`), in reduced form so that its
numerator and denominator are definitionally transparent. -/
def q27 : ℚ := ⟨27, 10, by norm_num, by norm_num⟩

/-- A decoded snapshot holding all four frequency fields and nothing else. -/
def freqObj : SnapshotObj :=
  { cpu_freq := some 2400000
    gpu_freq := some 800000
    npu_freq := some 1000000
    rga_aclk_freq := some 600000 }

lemma fixedRound_eq (q : ℚ) (prec : ℕ) (n : ℤ) (h : q * (10 : ℚ) ^ prec = (n : ℚ)) :
    fixedRound q prec = n := by
  unfold fixedRound
  rw [h, Int.floor_int_add, Int.floor_eq_zero_iff.mpr (by constructor <;> norm_num), add_zero]

lemma formatFixed_eval (q : ℚ) (prec : ℕ) (n : ℤ) (s : String)
    (h : q * (10 : ℚ) ^ prec = (n : ℚ))
    (hs : (if n < 0 then "-" else "") ++ natToStr (n.natAbs / 10 ^ prec) ++ "." ++
      String.mk (List.replicate (prec - (natToStr (n.natAbs % 10 ^ prec)).length) '0') ++
      natToStr (n.natAbs % 10 ^ prec) = s) :
    formatFixed q prec = s := by
  rw [formatFixed, fixedRound_eq q prec n h]
  exact hs

lemma fmt0_2 : formatFixed (0 : ℚ) 2 = "0.00" :=
  formatFixed_eval 0 2 0 "0.00" (by norm_num) (by decide)

lemma fmt0_1 : formatFixed (0 : ℚ) 1 = "0.0" :=
  formatFixed_eval 0 1 0 "0.0" (by norm_num) (by decide)

lemma update_empty (ui : DisplayState) :
    updateDataFromRust (some (Payload.wellFormed emptyObj)) ui = zeroState := by
  simp only [updateDataFromRust, updateCycle, docObject, emptyObj, toDouble, toInt,
    Option.getD_none, zero_div, fmt0_2, fmt0_1, zeroState]
  rfl

lemma update_malformed (raw : String) (ui : DisplayState) :
    updateDataFromRust (some (Payload.malformed raw)) ui = zeroState :=
  update_empty ui

/-- Claim C1 (counterexample): the frequency transform divides by 1,000,000,
so an input of 2,400,000,000 does not display as "2.40 GHz" (it displays as
"2400.00 GHz"); the claim as stated is false at this input. -/
theorem C1_freq_example_counterexample :
    (updateDataFromRust
      (some (Payload.wellFormed { emptyObj with cpu_freq := some 2400000000 }))
      priorState).freqCPU1 ≠ "2.40 GHz" := by
  simp only [updateDataFromRust, updateCycle, docObject, toDouble, Option.getD_some]
  rw [formatFixed_eval ((2400000000 : ℚ) / 1000000) 2 240000 "2400.00" (by norm_num) (by decide)]
  decide

/-- Claim C1 (amended): the frequency display transform divides the input by
1,000,000 and formats with 2 decimal places, so an input of 2,400,000,000
produces the label "2400.00 GHz" (an input of 2,400,000 would produce
"2.40 GHz"), and an input of 0 produces "0.00 GHz". -/
theorem C1_freq_example_amended :
    (updateDataFromRust
      (some (Payload.wellFormed { emptyObj with cpu_freq := some 2400000000 }))
      priorState).freqCPU1 = "2400.00 GHz" ∧
    (updateDataFromRust
      (some (Payload.wellFormed { emptyObj with cpu_freq := some 2400000 }))
      priorState).freqCPU1 = "2.40 GHz" ∧
    (updateDataFromRust
      (some (Payload.wellFormed { emptyObj with cpu_freq := some 0 }))
      priorState).freqCPU1 = "0.00 GHz" := by
  refine ⟨?_, ?_, ?_⟩ <;>
    simp only [updateDataFromRust, updateCycle, docObject, toDouble, Option.getD_some]
  · rw [formatFixed_eval ((2400000000 : ℚ) / 1000000) 2 240000 "2400.00" (by norm_num) (by decide)]
    decide
  · rw [formatFixed_eval ((2400000 : ℚ) / 1000000) 2 240 "2.40" (by norm_num) (by decide)]
    decide
  · rw [formatFixed_eval ((0 : ℚ) / 1000000) 2 0 "0.00" (by norm_num) (by decide)]
    decide

/-- Claim C5: per refresh cycle, the payload buffer is released exactly once
when the provider returned a buffer and zero times when it returned null —
never leaked, never double-released, never released when absent. -/
theorem C5_buffer_release (json_str : Option Payload) (ui : DisplayState) :
    (updateCycle json_str ui).2 = if json_str.isSome then 1 else 0 := by
  cases json_str <;> rfl

/-- Claim C9: applying the field transforms of a decoded snapshot twice
yields the same DisplayState as applying them once. -/
theorem C9_transform_idempotent (o : SnapshotObj) (d : DisplayState) :
    updateDataFromRust (some (Payload.wellFormed o))
      (updateDataFromRust (some (Payload.wellFormed o)) d) =
    updateDataFromRust (some (Payload.wellFormed o)) d := rfl

/-- Claim C3 (counterexample): a non-empty payload that does not parse does
not leave the display at its prior values — parsing yields the empty JSON
object and every output is overwritten; the claim as stated is false at the
payload "not json" with prior display `priorState`. -/
theorem C3_malformed_counterexample :
    updateDataFromRust (some (Payload.malformed ("not json"))) priorState ≠ priorState := by
  rw [update_malformed]
  intro hEq
  exact absurd (congrArg DisplayState.freqCPU1 hEq) (by decide)

/-- Claim C3 (amended): for every refresh cycle in which the provider
returns a non-empty payload that cannot be parsed, every field of
DisplayState after the cycle is the transform of the value 0 (all gauges 0,
frequency labels "0.00 GHz", temperature label "0.0 °C"); the cycle is not
skipped and last-known-good values are lost. -/
theorem C3_malformed_amended (raw : String) (ui : DisplayState) (_h : raw ≠ "") :
    updateDataFromRust (some (Payload.malformed raw)) ui = zeroState :=
  update_malformed raw ui

/-- Witness for C3_malformed_amended at the concrete payload "###". -/
theorem C3_malformed_amended_witness :
    ("###" : String) ≠ "" ∧
    updateDataFromRust (some (Payload.malformed ("###"))) priorState = zeroState :=
  ⟨by decide, C3_malformed_amended ("###") priorState (by decide)⟩

/-- Claim C4 (counterexample): an empty provider response is not equivalent
to a null one — the code only skips the cycle on a null pointer, while a
non-null empty string takes the parse path, fails to parse, and overwrites
every output with the transform of 0; the claim as stated is false at the
empty-string payload with prior display `priorState`. -/
theorem C4_unavailable_counterexample :
    updateDataFromRust (some (Payload.malformed (""))) priorState ≠ priorState := by
  rw [update_malformed]
  intro hEq
  exact absurd (congrArg DisplayState.freqGPU hEq) (by decide)

/-- Claim C4 (amended): when the provider returns a null payload, every
field of DisplayState after the cycle equals its value before the cycle
(and the cycle performs no work); an empty but non-null payload is instead
handled like a malformed one and resets every output to the transform of 0.
The scheduler continues to the next tick in either case. -/
theorem C4_unavailable_amended (ui : DisplayState) :
    updateDataFromRust none ui = ui ∧
    updateDataFromRust (some (Payload.malformed (""))) ui = zeroState :=
  ⟨rfl, update_malformed ("") ui⟩

/-- Claim C2 (counterexample): a snapshot that decodes successfully but
omits `cpu_freq` does not leave the CPU frequency label unchanged — the
absent field reads as 0 and the label is overwritten with "0.00 GHz"; the
claim as stated is false at a snapshot holding only `temperature`. -/
theorem C2_absent_field_counterexample :
    (updateDataFromRust
      (some (Payload.wellFormed { emptyObj with temperature := some 45500 }))
      priorState).freqCPU1 ≠ priorState.freqCPU1 := by
  simp only [updateDataFromRust, updateCycle, docObject, emptyObj, toDouble, Option.getD_none,
    zero_div, fmt0_2]
  decide

/-- Claim C2 (amended): in a cycle whose snapshot decodes successfully, a
field absent from the snapshot does not keep its previous display value —
its DisplayState entry is overwritten with the transform of 0: gauges to 0,
frequency labels to "0.00 GHz", the temperature pair to 0 and "0.0 °C", the
fan level to 0.  The resulting entry is independent of the prior display. -/
theorem C2_absent_field_amended (o : SnapshotObj) (d : DisplayState) :
    (o.cpu_usage = none →
      (updateDataFromRust (some (Payload.wellFormed o)) d).barCPU1 = 0) ∧
    (o.cpu_freq = none →
      (updateDataFromRust (some (Payload.wellFormed o)) d).freqCPU1 = "0.00 GHz") ∧
    (o.gpu_usage = none →
      (updateDataFromRust (some (Payload.wellFormed o)) d).barGPU = 0) ∧
    (o.gpu_freq = none →
      (updateDataFromRust (some (Payload.wellFormed o)) d).freqGPU = "0.00 GHz") ∧
    (o.npu_usage = none →
      (updateDataFromRust (some (Payload.wellFormed o)) d).barNPU1 = 0) ∧
    (o.npu_freq = none →
      (updateDataFromRust (some (Payload.wellFormed o)) d).freqNPU1 = "0.00 GHz") ∧
    (o.rga_usage = none →
      (updateDataFromRust (some (Payload.wellFormed o)) d).barRGA1 = 0) ∧
    (o.rga_aclk_freq = none →
      (updateDataFromRust (some (Payload.wellFormed o)) d).freqRGA1 = "0.00 GHz") ∧
    (o.memory_usage = none →
      (updateDataFromRust (some (Payload.wellFormed o)) d).barMem = 0) ∧
    (o.swap_usage = none →
      (updateDataFromRust (some (Payload.wellFormed o)) d).barSwap = 0) ∧
    (o.temperature = none →
      (updateDataFromRust (some (Payload.wellFormed o)) d).barTemp = 0 ∧
      (updateDataFromRust (some (Payload.wellFormed o)) d).freqTemp = "0.0 °C") ∧
    (o.fan_state = none →
      (updateDataFromRust (some (Payload.wellFormed o)) d).barFan = 0) := by
  refine ⟨fun h => ?_, fun h => ?_, fun h => ?_, fun h => ?_, fun h => ?_, fun h => ?_,
    fun h => ?_, fun h => ?_, fun h => ?_, fun h => ?_, fun h => ⟨?_, ?_⟩, fun h => ?_⟩ <;>
    simp only [updateDataFromRust, updateCycle, docObject, toDouble, toInt, h,
      Option.getD_none, zero_div, fmt0_2, fmt0_1] <;>
    rfl

/-- Witness for C2_absent_field_amended at the empty snapshot, where every
absence hypothesis holds by rfl. -/
theorem C2_absent_field_amended_witness :
    (updateDataFromRust (some (Payload.wellFormed emptyObj)) priorState).barCPU1 = 0 ∧
    (updateDataFromRust (some (Payload.wellFormed emptyObj)) priorState).freqCPU1 = "0.00 GHz" ∧
    (updateDataFromRust (some (Payload.wellFormed emptyObj)) priorState).barGPU = 0 ∧
    (updateDataFromRust (some (Payload.wellFormed emptyObj)) priorState).freqGPU = "0.00 GHz" ∧
    (updateDataFromRust (some (Payload.wellFormed emptyObj)) priorState).barNPU1 = 0 ∧
    (updateDataFromRust (some (Payload.wellFormed emptyObj)) priorState).freqNPU1 = "0.00 GHz" ∧
    (updateDataFromRust (some (Payload.wellFormed emptyObj)) priorState).barRGA1 = 0 ∧
    (updateDataFromRust (some (Payload.wellFormed emptyObj)) priorState).freqRGA1 = "0.00 GHz" ∧
    (updateDataFromRust (some (Payload.wellFormed emptyObj)) priorState).barMem = 0 ∧
    (updateDataFromRust (some (Payload.wellFormed emptyObj)) priorState).barSwap = 0 ∧
    (updateDataFromRust (some (Payload.wellFormed emptyObj)) priorState).barTemp = 0 ∧
    (updateDataFromRust (some (Payload.wellFormed emptyObj)) priorState).freqTemp = "0.0 °C" ∧
    (updateDataFromRust (some (Payload.wellFormed emptyObj)) priorState).barFan = 0 := by
  have h := C2_absent_field_amended emptyObj priorState
  exact ⟨h.1 rfl, h.2.1 rfl, h.2.2.1 rfl, h.2.2.2.1 rfl, h.2.2.2.2.1 rfl,
    h.2.2.2.2.2.1 rfl, h.2.2.2.2.2.2.1 rfl, h.2.2.2.2.2.2.2.1 rfl,
    h.2.2.2.2.2.2.2.2.1 rfl, h.2.2.2.2.2.2.2.2.2.1 rfl,
    (h.2.2.2.2.2.2.2.2.2.2.1 rfl).1, (h.2.2.2.2.2.2.2.2.2.2.1 rfl).2,
    h.2.2.2.2.2.2.2.2.2.2.2 rfl⟩

/-- Claim C6: a present `temperature` field is divided by 1000 for the gauge
value and for the 1-decimal label suffixed " °C"; in particular an input of
45500 millidegrees yields gauge value 45.5 and label "45.5 °C". -/
theorem C6_temperature_transform (o : SnapshotObj) (d : DisplayState) (q : ℚ)
    (h : o.temperature = some q) :
    (updateDataFromRust (some (Payload.wellFormed o)) d).barTemp = q / 1000 ∧
    (updateDataFromRust (some (Payload.wellFormed o)) d).freqTemp =
      formatFixed (q / 1000) 1 ++ " °C" ∧
    (q = 45500 →
      (updateDataFromRust (some (Payload.wellFormed o)) d).barTemp = 45.5 ∧
      (updateDataFromRust (some (Payload.wellFormed o)) d).freqTemp = "45.5 °C") := by
  have hbar : (updateDataFromRust (some (Payload.wellFormed o)) d).barTemp = q / 1000 := by
    simp only [updateDataFromRust, updateCycle, docObject, toDouble, h, Option.getD_some]
  have hlab : (updateDataFromRust (some (Payload.wellFormed o)) d).freqTemp =
      formatFixed (q / 1000) 1 ++ " °C" := by
    simp only [updateDataFromRust, updateCycle, docObject, toDouble, h, Option.getD_some]
  refine ⟨hbar, hlab, fun hq => ⟨?_, ?_⟩⟩
  · rw [hbar, hq]
    norm_num
  · rw [hlab, hq, formatFixed_eval ((45500 : ℚ) / 1000) 1 455 "45.5" (by norm_num) (by decide)]
    rfl

/-- Witness for C6_temperature_transform at a snapshot holding
`temperature = 45500`. -/
theorem C6_temperature_transform_witness :
    (updateDataFromRust (some (Payload.wellFormed { emptyObj with temperature := some 45500 }))
      priorState).barTemp = 45.5 ∧
    (updateDataFromRust (some (Payload.wellFormed { emptyObj with temperature := some 45500 }))
      priorState).freqTemp = "45.5 °C" :=
  (C6_temperature_transform { emptyObj with temperature := some 45500 } priorState 45500
    rfl).2.2 rfl

/-- Claim C7: every present frequency field (`cpu_freq`, `gpu_freq`,
`npu_freq`, `rga_aclk_freq`) is displayed as the value divided by 1,000,000,
formatted with exactly 2 decimal places, followed by the unit suffix
" GHz". -/
theorem C7_frequency_labels (o : SnapshotObj) (d : DisplayState) :
    (∀ q : ℚ, o.cpu_freq = some q →
      (updateDataFromRust (some (Payload.wellFormed o)) d).freqCPU1 =
        formatFixed (q / 1000000) 2 ++ " GHz") ∧
    (∀ q : ℚ, o.gpu_freq = some q →
      (updateDataFromRust (some (Payload.wellFormed o)) d).freqGPU =
        formatFixed (q / 1000000) 2 ++ " GHz") ∧
    (∀ q : ℚ, o.npu_freq = some q →
      (updateDataFromRust (some (Payload.wellFormed o)) d).freqNPU1 =
        formatFixed (q / 1000000) 2 ++ " GHz") ∧
    (∀ q : ℚ, o.rga_aclk_freq = some q →
      (updateDataFromRust (some (Payload.wellFormed o)) d).freqRGA1 =
        formatFixed (q / 1000000) 2 ++ " GHz") := by
  refine ⟨fun q h => ?_, fun q h => ?_, fun q h => ?_, fun q h => ?_⟩ <;>
    simp only [updateDataFromRust, updateCycle, docObject, toDouble, h, Option.getD_some]

/-- Witness for C7_frequency_labels at a snapshot holding all four frequency
fields (2400000, 800000, 1000000, 600000). -/
theorem C7_frequency_labels_witness :
    (updateDataFromRust (some (Payload.wellFormed freqObj)) priorState).freqCPU1 = "2.40 GHz" ∧
    (updateDataFromRust (some (Payload.wellFormed freqObj)) priorState).freqGPU = "0.80 GHz" ∧
    (updateDataFromRust (some (Payload.wellFormed freqObj)) priorState).freqNPU1 = "1.00 GHz" ∧
    (updateDataFromRust (some (Payload.wellFormed freqObj)) priorState).freqRGA1 = "0.60 GHz" := by
  have h := C7_frequency_labels freqObj priorState
  refine ⟨?_, ?_, ?_, ?_⟩
  · rw [h.1 2400000 rfl,
      formatFixed_eval ((2400000 : ℚ) / 1000000) 2 240 "2.40" (by norm_num) (by decide)]
    rfl
  · rw [h.2.1 800000 rfl,
      formatFixed_eval ((800000 : ℚ) / 1000000) 2 80 "0.80" (by norm_num) (by decide)]
    rfl
  · rw [h.2.2.1 1000000 rfl,
      formatFixed_eval ((1000000 : ℚ) / 1000000) 2 100 "1.00" (by norm_num) (by decide)]
    rfl
  · rw [h.2.2.2 600000 rfl,
      formatFixed_eval ((600000 : ℚ) / 1000000) 2 60 "0.60" (by norm_num) (by decide)]
    rfl

/-- Claim C8 (counterexample): a `fan_state` of 2.7 is not truncated toward
zero to the level 2 — Qt integer conversion returns the default 0 for a
non-whole number, so the fan gauge reads 0; the claim as stated is false at
the payload value 27/10. -/
theorem C8_fan_counterexample :
    (updateDataFromRust (some (Payload.wellFormed { emptyObj with fan_state := some q27 }))
      priorState).barFan ≠ 2 := by
  simp only [updateDataFromRust, updateCycle, docObject, toInt]
  decide

/-- Claim C8 (amended): a present `fan_state` is used as the fan gauge level
only when it is a whole number in the `int` range; any other value (for
example 2.7) reads as the conversion default 0 rather than being truncated
toward zero. -/
theorem C8_fan_amended (o : SnapshotObj) (d : DisplayState) (q : ℚ)
    (h : o.fan_state = some q) :
    ((q.den = 1 ∧ -(2 ^ 31 : ℤ) ≤ q.num ∧ q.num < 2 ^ 31) →
      (updateDataFromRust (some (Payload.wellFormed o)) d).barFan = q.num) ∧
    (¬(q.den = 1 ∧ -(2 ^ 31 : ℤ) ≤ q.num ∧ q.num < 2 ^ 31) →
      (updateDataFromRust (some (Payload.wellFormed o)) d).barFan = 0) := by
  simp only [updateDataFromRust, updateCycle, docObject, toInt, h]
  exact ⟨fun hc => if_pos hc, fun hc => if_neg hc⟩

/-- Witness for C8_fan_amended at the non-whole value 27/10, whose
denominator is 10. -/
theorem C8_fan_amended_witness :
    (updateDataFromRust (some (Payload.wellFormed { emptyObj with fan_state := some q27 }))
      priorState).barFan = 0 :=
  (C8_fan_amended { emptyObj with fan_state := some q27 } priorState q27 rfl).2
    (fun hc => absurd hc.1 (by decide))

/-- Claim C10: with any non-null payload the resulting display depends only
on the payload, never on the prior display; absent fields behave exactly as
the explicit value 0 (`fillAbsent`); and the empty JSON object — whether
from an empty object payload or from an unparseable payload — produces
`zeroState`: all gauges 0, frequency labels "0.00 GHz", temperature label
"0.0 °C". -/
theorem C10_payload_determines_display (p : Payload) (d d2 : DisplayState) (o : SnapshotObj) :
    updateDataFromRust (some p) d = updateDataFromRust (some p) d2 ∧
    updateDataFromRust (some (Payload.wellFormed o)) d =
      updateDataFromRust (some (Payload.wellFormed (fillAbsent o))) d ∧
    updateDataFromRust (some (Payload.wellFormed emptyObj)) d = zeroState ∧
    updateDataFromRust (some (Payload.malformed ("bad payload"))) d = zeroState := by
  refine ⟨rfl, ?_, update_empty d, update_malformed _ d⟩
  obtain ⟨f1, f2, f3, f4, f5, f6, f7, f8, f9, f10, f11, f12⟩ := o
  cases f12 <;> rfl
